import Mathlib

/-!
Verification of the upload-pipeline routes of the misinfoGuard backend.

The embedding mirrors the two route variants present in the repository:

* `uploadRoute` — the main `POST /upload` route of `src/routes/userData.js`
  (multer stores the file as `uploads/<originalname>`, dispatches on the
  primary MIME component to a video handler, which ffmpeg-compresses to
  `uploads/compressed_<name>`, or an image handler, which sends the file
  as-is; both call the Flask/image detector, Google Drive, and MongoDB).
* `uploadRouteTs` — the timestamp-prefix variant (`src/unnamed/part_000`):
  multer stores the file as `uploads/<Date.now()>_<originalname>`, performs a
  single `fs.existsSync` check, skips compression, calls the video detector,
  Google Drive and MongoDB, and its persisted record carries no `fileName`.
* `uploadRouteJs` — the main route with the `handlers[fileType]` dispatch
  modelled with JavaScript's full prototype-chain lookup: MIME primaries
  naming inherited `Object.prototype` members yield a truthy handler, skip
  the 400/unlink rejection, and hang or hit the outer catch.  It agrees
  with `uploadRoute` whenever the lookup hits the table's own keys or
  misses entirely.

Disk state is a list of file paths; `fs.unlinkSync` removes a path and throws
ENOENT when the path is absent, exactly as Node's `fs` does.  External
collaborators (ffmpeg completion, axios detector calls, Google Drive, the
MongoDB upsert) are nondeterministic inputs supplied by an `Env`; an absent
detector outcome models an axios rejection (timeout, transport failure, or a
non-2xx status rejected by axios' default `validateStatus`).  Uncaught
JavaScript exceptions are the `Except.error` branch, caught by the route's
outer `try`/`catch` which answers `500 "Error uploading file"`.
-/

/-- A parsed multipart file as multer hands it to the route (`req.file`). -/
structure ReqFile where
  originalname : String
  mimetype : String
deriving DecidableEq

/-- A resolved axios response from the video (Flask) detector:
`{status, data: {score, is_deepfake}}`. -/
structure VideoResp where
  status : Nat
  score : Rat
  is_deepfake : Bool
deriving DecidableEq

/-- A resolved axios response from the image detector:
`{status, data: {probability, is_deepfake}}`. -/
structure ImageResp where
  status : Nat
  probability : Rat
  is_deepfake : Bool
deriving DecidableEq

/-- Outcomes of the external collaborators for one request.  `none` for a
detector means the axios promise rejected (timeout, transport failure, or
non-2xx status); `none` for `archive` means `uploadToGoogleDrive` threw;
`compressOk = false` means the ffmpeg promise rejected; `persistOk = false`
means `UserData.findOneAndUpdate` threw. -/
structure Env where
  compressOk : Bool
  videoDetector : Option VideoResp
  imageDetector : Option ImageResp
  archive : Option String
  persistOk : Bool
deriving DecidableEq

/-- One document pushed into the user's `files` array.  The main route pushes
`{fileName, fileUrl, score, is_deepfake}`; the timestamp variant pushes
`{fileUrl, score, is_deepfake}` with no `fileName`, hence the `Option`. -/
structure FileRecord where
  fileName : Option String
  fileUrl : String
  score : Rat
  is_deepfake : Bool
deriving DecidableEq

/-- The JSON body and status sent by `res.status(..).json(..)`.  Fields that a
given branch does not include are `none`. -/
structure Response where
  status : Nat
  message : String
  fileName : Option String
  fileUrl : Option String
  score : Option Rat
  is_deepfake : Option Bool
  errorMsg : Option String
deriving DecidableEq

/-- Observable request state: files on disk, records pushed to MongoDB during
this request, the path handed to the detector, the path handed to Google
Drive, and whether the MongoDB upsert was attempted. -/
structure St where
  disk : List String
  records : List FileRecord
  detectorFile : Option String
  archiveFile : Option String
  persistCalled : Bool
deriving DecidableEq

/-- JavaScript exceptions that the pipeline can throw. -/
inductive JsError where
  | enoent : String → JsError
  | compressFailed : JsError
  | axiosFailed : JsError
  | imageApiFailed : JsError
  | archiveFailed : JsError
  | persistFailed : JsError
deriving DecidableEq

/-- The `message` property of each exception, as interpolated into the image
handler's `{message, error: error.message}` body. -/
def errMessage : JsError → String
  | .enoent p => "ENOENT: no such file or directory, unlink " ++ p
  | .compressFailed => "ffmpeg exited with code 1"
  | .axiosFailed => "Image API request failed"
  | .imageApiFailed => "Image API failed"
  | .archiveFailed => "Error uploading file to Google Drive"
  | .persistFailed => "Database error"

/-- `multer.diskStorage` filename callback of the main route:
`cb(null, file.originalname)` — the client name verbatim. -/
def multerFilename (f : ReqFile) : String :=
  f.originalname

/-- On-disk path of a stored upload in the main route: destination
`"uploads/"` joined with the multer filename. -/
def multerPath (name : String) : String :=
  "uploads/" ++ name

/-- The video handler's derived artifact path:
`` `uploads/compressed_${req.file.filename}` ``. -/
def compressedPathOf (name : String) : String :=
  "uploads/compressed_" ++ name

/-- `multer.diskStorage` filename callback of the timestamp variant:
`cb(null, Date.now() + "_" + file.originalname)`. -/
def tsFilename (now : Nat) (f : ReqFile) : String :=
  toString now ++ "_" ++ f.originalname

/-- Split a character list at every occurrence of `sep`, the semantics of
JavaScript's `String.prototype.split` with a one-character separator
(adjacent separators yield empty groups, the empty string yields `[""]`). -/
def splitChars (sep : Char) : List Char → List (List Char)
  | [] => [[]]
  | c :: rest =>
    if c = sep then
      [] :: splitChars sep rest
    else
      match splitChars sep rest with
      | [] => [[c]]
      | g :: gs => (c :: g) :: gs

/-- `s.split(sep)` for a one-character separator. -/
def splitOnChar (sep : Char) (s : String) : List String :=
  (splitChars sep s.data).map String.mk

/-- First component of `mimetype.split("/")`, i.e.
`req.file.mimetype.split("/")[0]`. -/
def primaryType (m : String) : String :=
  (splitOnChar '/' m).headD ""

/-- `fs.unlinkSync`: removes the path if present, otherwise throws ENOENT. -/
def unlinkSync (p : String) (s : St) : Except JsError St :=
  if p ∈ s.disk then
    .ok ⟨s.disk.erase p, s.records, s.detectorFile, s.archiveFile, s.persistCalled⟩
  else
    .error (.enoent p)

/-- The detector calls pass `timeout: 30000` to axios. -/
def detectorTimeoutMs : Nat := 30000

/-- The `outputOptions` array of `compressVideo`, verbatim from the source. -/
def compressVideoOutputOptionsSrc : List String :=
  ["-preset fast", "-crf 28", "-vf", "scale=640:-2:flags=lanczos",
   "-vf", "pad=ceil(iw/2)*2:ceil(ih/2)*2"]

/-- fluent-ffmpeg splits each space-containing option string into flag and
value when assembling the ffmpeg argv, and passes the remaining entries
through verbatim, so the argv fragment contributed by `outputOptions` is the
space-splitting of each entry in order. -/
def compressVideoArgv : List String :=
  (compressVideoOutputOptionsSrc.map (fun o => splitOnChar ' ' o)).flatten

/-- ffmpeg's documented handling of repeated per-stream options: when
`-vf`/`-filter:v` is given several times for one output stream, only the last
occurrence is applied (ffmpeg warns "Multiple -filter, -af or -vf options
specified ... only the last option will be used").  This scans an argv for
the value of the last `-vf` flag. -/
def lastVfValue : List String → Option String
  | [] => none
  | [_] => none
  | a :: b :: rest =>
    match lastVfValue (b :: rest) with
    | some w => some w
    | none => if a = "-vf" then some b else none

/-- `.videoBitrate("1000k")` in `compressVideo`. -/
def videoBitrateArg : String := "1000k"

/-- `.audioBitrate("128k")` in `compressVideo`. -/
def audioBitrateArg : String := "128k"

/-- `handlers["video"]`: compress, delete the original, POST the compressed
artifact to the Flask detector (catch: delete artifact, 500), destructure
`{score, is_deepfake}`, upload to Drive, delete the artifact, upsert the
user document, answer 200. -/
def videoHandler (f : ReqFile) (env : Env) (s : St) : St × Except JsError Response :=
  let inputPath := multerPath (multerFilename f)
  let compressedPath := compressedPathOf (multerFilename f)
  if env.compressOk = false then
    (s, .error .compressFailed)
  else
    let s1 : St := ⟨compressedPath :: s.disk, s.records, s.detectorFile, s.archiveFile, s.persistCalled⟩
    match unlinkSync inputPath s1 with
    | .error e => (s1, .error e)
    | .ok s2 =>
      let s3 : St := ⟨s2.disk, s2.records, some compressedPath, s2.archiveFile, s2.persistCalled⟩
      match env.videoDetector with
      | none =>
        match unlinkSync compressedPath s3 with
        | .error e => (s3, .error e)
        | .ok s4 => (s4, .ok ⟨500, "Flask API failed, upload canceled", none, none, none, none, none⟩)
      | some d =>
        let s4 : St := ⟨s3.disk, s3.records, s3.detectorFile, some compressedPath, s3.persistCalled⟩
        match env.archive with
        | none => (s4, .error .archiveFailed)
        | some fileUrl =>
          match unlinkSync compressedPath s4 with
          | .error e => (s4, .error e)
          | .ok s5 =>
            let s6 : St := ⟨s5.disk, s5.records, s5.detectorFile, s5.archiveFile, true⟩
            if env.persistOk = false then
              (s6, .error .persistFailed)
            else
              let s7 : St := ⟨s6.disk, s6.records ++ [⟨some f.originalname, fileUrl, d.score, d.is_deepfake⟩],
                              s6.detectorFile, s6.archiveFile, true⟩
              (s7, .ok ⟨200, "Video processed & uploaded", some f.originalname, some fileUrl,
                        some d.score, some d.is_deepfake, none⟩)

/-- The `try` block of `handlers["image"]`: POST the original file to the
image detector, require status 200, upload the original to Drive, delete it,
upsert the user document, answer 200.  No compression step exists. -/
def imageTry (f : ReqFile) (env : Env) (s : St) : St × Except JsError Response :=
  let inputPath := multerPath (multerFilename f)
  let s1 : St := ⟨s.disk, s.records, some inputPath, s.archiveFile, s.persistCalled⟩
  match env.imageDetector with
  | none => (s1, .error .axiosFailed)
  | some r =>
    if r.status ≠ 200 then
      (s1, .error .imageApiFailed)
    else
      let s2 : St := ⟨s1.disk, s1.records, s1.detectorFile, some inputPath, s1.persistCalled⟩
      match env.archive with
      | none => (s2, .error .archiveFailed)
      | some fileUrl =>
        match unlinkSync inputPath s2 with
        | .error e => (s2, .error e)
        | .ok s3 =>
          let s4 : St := ⟨s3.disk, s3.records, s3.detectorFile, s3.archiveFile, true⟩
          if env.persistOk = false then
            (s4, .error .persistFailed)
          else
            let s5 : St := ⟨s4.disk, s4.records ++ [⟨some f.originalname, fileUrl, r.probability, r.is_deepfake⟩],
                            s4.detectorFile, s4.archiveFile, true⟩
            (s5, .ok ⟨200, "Image processed & uploaded", some f.originalname, some fileUrl,
                      some r.probability, some r.is_deepfake, none⟩)

/-- `handlers["image"]`: the `try` block above with its `catch`, which runs
`fs.unlinkSync(inputPath)` — itself throwing if the file is already gone —
before answering `500 {message: "Image processing failed", error: ...}`. -/
def imageHandler (f : ReqFile) (env : Env) (s : St) : St × Except JsError Response :=
  match imageTry f env s with
  | (s1, .ok r) => (s1, .ok r)
  | (s1, .error e) =>
    match unlinkSync (multerPath (multerFilename f)) s1 with
    | .error e2 => (s1, .error e2)
    | .ok s2 => (s2, .ok ⟨500, "Image processing failed", none, none, none, none, some (errMessage e)⟩)

/-- The route-level `catch (err)`: any exception escaping the handler becomes
`500 {message: "Error uploading file"}` with no cleanup of its own. -/
def routeWrap : St × Except JsError Response → St × Response
  | (s, .ok r) => (s, r)
  | (s, .error _) => (s, ⟨500, "Error uploading file", none, none, none, none, none⟩)

/-- The main `POST /upload` route on the dispatches whose
`handlers[fileType]` lookup hits one of the table's own keys ("video" /
"image") or misses the whole prototype chain (the `!handler` branch): reject
when no file parsed, run the matching handler, or delete the file and answer
400, all wrapped in the outer catch.  `uploadRouteJs` below extends this
with the lookups that land on members the `handlers` object literal inherits
from `Object.prototype`; the two models agree on this restriction
(`uploadRouteJs_restricts_to_uploadRoute`). -/
def uploadRoute (file? : Option ReqFile) (env : Env) (disk0 : List String) : St × Response :=
  let s0 : St := ⟨disk0, [], none, none, false⟩
  match file? with
  | none => (s0, ⟨400, "No file uploaded or invalid format", none, none, none, none, none⟩)
  | some f =>
    let t := primaryType f.mimetype
    if t = "video" then
      routeWrap (videoHandler f env s0)
    else if t = "image" then
      routeWrap (imageHandler f env s0)
    else
      match unlinkSync (multerPath (multerFilename f)) s0 with
      | .error _ => (s0, ⟨500, "Error uploading file", none, none, none, none, none⟩)
      | .ok s1 => (s1, ⟨400, "Unsupported file type", none, none, none, none, none⟩)

/-- The timestamp-variant `POST /upload` route (`src/unnamed/part_000`): one
`fs.existsSync` check answering `500 "Temporary file not found"` when false,
a detector call on the stored file itself (no compression), a
`status !== 200` check, Drive upload, a `$push` of `{fileUrl, score,
is_deepfake}` (no fileName), deletion of the stored file, then 200 with
`{message, fileUrl, score, is_deepfake}` (no fileName). -/
def uploadRouteTs (file? : Option ReqFile) (now : Nat) (env : Env) (disk0 : List String) : St × Response :=
  let s0 : St := ⟨disk0, [], none, none, false⟩
  match file? with
  | none => (s0, ⟨400, "No file uploaded or invalid format", none, none, none, none, none⟩)
  | some f =>
    let path := multerPath (tsFilename now f)
    if path ∈ disk0 then
      let s1 : St := ⟨s0.disk, s0.records, some path, s0.archiveFile, s0.persistCalled⟩
      match env.videoDetector with
      | none =>
        match unlinkSync path s1 with
        | .error _ => (s1, ⟨500, "Error uploading file", none, none, none, none, none⟩)
        | .ok s2 => (s2, ⟨500, "Flask API failed, upload canceled", none, none, none, none, none⟩)
      | some d =>
        if d.status ≠ 200 then
          match unlinkSync path s1 with
          | .error _ => (s1, ⟨500, "Error uploading file", none, none, none, none, none⟩)
          | .ok s2 => (s2, ⟨500, "Unexpected Flask API response", none, none, none, none, none⟩)
        else
          let s2 : St := ⟨s1.disk, s1.records, s1.detectorFile, some path, s1.persistCalled⟩
          match env.archive with
          | none => (s2, ⟨500, "Error uploading file", none, none, none, none, none⟩)
          | some fileUrl =>
            let s3 : St := ⟨s2.disk, s2.records, s2.detectorFile, s2.archiveFile, true⟩
            if env.persistOk = false then
              (s3, ⟨500, "Error uploading file", none, none, none, none, none⟩)
            else
              let s4 : St := ⟨s3.disk, s3.records ++ [⟨none, fileUrl, d.score, d.is_deepfake⟩],
                              s3.detectorFile, s3.archiveFile, true⟩
              match unlinkSync path s4 with
              | .error _ => (s4, ⟨500, "Error uploading file", none, none, none, none, none⟩)
              | .ok s5 => (s5, ⟨200, "File uploaded & link saved", none, some fileUrl,
                                some d.score, some d.is_deepfake, none⟩)
    else
      (s0, ⟨500, "Temporary file not found", none, none, none, none, none⟩)

/-- Members the `handlers` object literal inherits from `Object.prototype`
in Node whose invocation as `await handler(req, res, inputPath)` returns
without throwing — calling `toString`, `toLocaleString`, `valueOf`,
`hasOwnProperty`, `isPrototypeOf`, `propertyIsEnumerable`, the constructor
`Object`, or the legacy lookup accessors on the `handlers` receiver with
these arguments yields a value and never throws, so the try block completes
without ever sending a response. -/
def objectProtoCallableKeys : List String :=
  ["constructor", "hasOwnProperty", "isPrototypeOf", "propertyIsEnumerable",
   "toLocaleString", "toString", "valueOf", "__lookupGetter__", "__lookupSetter__"]

/-- Inherited members whose invocation throws: `__proto__` evaluates to
`Object.prototype`, which is truthy but not callable, and the legacy define
accessors require their second argument (`res`, not a function) to be
callable — each raises a TypeError that the route-level catch turns into
the generic 500. -/
def objectProtoThrowingKeys : List String :=
  ["__proto__", "__defineGetter__", "__defineSetter__"]

/-- Outcome of the JavaScript property lookup `handlers[fileType]`, which
traverses the prototype chain of the object literal: one of its two own
keys, an inherited `Object.prototype` member (truthy, so the `!handler`
guard is skipped), or `undefined`. -/
inductive HandlerLookup where
  | ownVideo : HandlerLookup
  | ownImage : HandlerLookup
  | inheritedCallable : HandlerLookup
  | inheritedThrowing : HandlerLookup
  | missing : HandlerLookup
deriving DecidableEq

/-- `handlers[fileType]` with full prototype-chain semantics. -/
def handlersLookup (t : String) : HandlerLookup :=
  if t = "video" then .ownVideo
  else if t = "image" then .ownImage
  else if t ∈ objectProtoCallableKeys then .inheritedCallable
  else if t ∈ objectProtoThrowingKeys then .inheritedThrowing
  else .missing

/-- The main `POST /upload` route with the dynamic dispatch modelled
faithfully to JavaScript: `handlers[fileType]` is a prototype-chain lookup,
so a MIME primary naming an inherited `Object.prototype` member passes the
`!handler` truthiness guard.  A callable inherited member returns without
sending any HTTP response — the request hangs, modelled as a `none`
response — while a non-callable or throwing one escalates to the outer
catch's generic 500.  In both cases the 400/unlink branch is skipped and no
collaborator is called. -/
def uploadRouteJs (file? : Option ReqFile) (env : Env) (disk0 : List String) :
    St × Option Response :=
  let s0 : St := ⟨disk0, [], none, none, false⟩
  match file? with
  | none => (s0, some ⟨400, "No file uploaded or invalid format", none, none, none, none, none⟩)
  | some f =>
    match handlersLookup (primaryType f.mimetype) with
    | .ownVideo =>
      let out := routeWrap (videoHandler f env s0)
      (out.1, some out.2)
    | .ownImage =>
      let out := routeWrap (imageHandler f env s0)
      (out.1, some out.2)
    | .inheritedCallable => (s0, none)
    | .inheritedThrowing =>
      (s0, some ⟨500, "Error uploading file", none, none, none, none, none⟩)
    | .missing =>
      match unlinkSync (multerPath (multerFilename f)) s0 with
      | .error _ => (s0, some ⟨500, "Error uploading file", none, none, none, none, none⟩)
      | .ok s1 => (s1, some ⟨400, "Unsupported file type", none, none, none, none, none⟩)

/-! ## Helper lemmas -/

/-- A stored upload path and its derived compressed-artifact path never
coincide: their lengths differ. -/
theorem multerPath_ne_compressedPathOf (n : String) : multerPath n ≠ compressedPathOf n := by
  intro h
  have hl := congrArg String.length h
  simp [multerPath, compressedPathOf, String.length_append] at hl
  exact absurd hl (by decide)

/-- `fs.unlinkSync` on a present path removes it and touches nothing else. -/
theorem unlinkSync_of_mem {p : String} {s : St} (h : p ∈ s.disk) :
    unlinkSync p s = .ok ⟨s.disk.erase p, s.records, s.detectorFile, s.archiveFile, s.persistCalled⟩ := by
  simp [unlinkSync, h]

/-- `fs.unlinkSync` on an absent path throws ENOENT. -/
theorem unlinkSync_of_not_mem {p : String} {s : St} (h : p ∉ s.disk) :
    unlinkSync p s = .error (.enoent p) := by
  simp [unlinkSync, h]

/-- The route-level catch never changes the request state, only the response. -/
theorem routeWrap_fst (x : St × Except JsError Response) : (routeWrap x).1 = x.1 := by
  rcases x with ⟨s, e⟩
  cases e <;> rfl

/-- Any record the video handler adds carries the archive URL and the
detector's score, and only appears when detector, archive and persistence
all succeeded. -/
theorem videoHandler_records_sub (f : ReqFile) (env : Env) (s : St) (rec : FileRecord)
    (h : rec ∈ (videoHandler f env s).1.records) :
    rec ∈ s.records ∨ (env.archive = some rec.fileUrl ∧ env.persistOk = true ∧
      ∃ d, env.videoDetector = some d ∧ rec.score = d.score ∧ rec.is_deepfake = d.is_deepfake) := by
  have hne := multerPath_ne_compressedPathOf (multerFilename f)
  by_cases hin : multerPath (multerFilename f) ∈ s.disk
  all_goals rcases hc : env.compressOk
  all_goals rcases hd : env.videoDetector with _ | d
  all_goals rcases ha : env.archive with _ | url
  all_goals rcases hp : env.persistOk
  all_goals simp [videoHandler, unlinkSync, hin, hc, hd, ha, hp, hne, hne.symm, List.erase_cons] at h
  all_goals try exact Or.inl h
  all_goals rcases h with h | h
  all_goals try exact Or.inl h
  all_goals subst h
  all_goals simp

/-- Any record the image handler adds carries the archive URL and the
detector's probability, and only appears when detector, archive and
persistence all succeeded. -/
theorem imageHandler_records_sub (f : ReqFile) (env : Env) (s : St) (rec : FileRecord)
    (h : rec ∈ (imageHandler f env s).1.records) :
    rec ∈ s.records ∨ (env.archive = some rec.fileUrl ∧ env.persistOk = true ∧
      ∃ r, env.imageDetector = some r ∧ r.status = 200 ∧ rec.score = r.probability ∧ rec.is_deepfake = r.is_deepfake) := by
  by_cases hin : multerPath (multerFilename f) ∈ s.disk
  all_goals by_cases hin2 : multerPath (multerFilename f) ∈ s.disk.erase (multerPath (multerFilename f))
  all_goals rcases hi : env.imageDetector with _ | r
  all_goals rcases ha : env.archive with _ | url
  all_goals rcases hp : env.persistOk
  all_goals try by_cases hst : r.status = 200
  all_goals try simp [imageHandler, imageTry, unlinkSync, hin, hin2, hi, ha, hp, hst] at h
  all_goals try simp [imageHandler, imageTry, unlinkSync, hin, hin2, hi, ha, hp] at h
  all_goals try exact Or.inl h
  all_goals rcases h with h | h
  all_goals try exact Or.inl h
  all_goals subst h
  all_goals simp [hst]

/-- Records-origin property lifted to the whole main route. -/
theorem uploadRoute_records_origin (file? : Option ReqFile) (env : Env) (disk0 : List String)
    (rec : FileRecord) (h : rec ∈ (uploadRoute file? env disk0).1.records) :
    env.archive = some rec.fileUrl ∧ env.persistOk = true ∧
      ((∃ d, env.videoDetector = some d ∧ rec.score = d.score ∧ rec.is_deepfake = d.is_deepfake) ∨
       (∃ r, env.imageDetector = some r ∧ r.status = 200 ∧ rec.score = r.probability ∧ rec.is_deepfake = r.is_deepfake)) := by
  rcases file? with _ | f
  · simp [uploadRoute] at h
  · by_cases hv : primaryType f.mimetype = "video"
    · simp [uploadRoute, hv, routeWrap_fst] at h
      rcases videoHandler_records_sub f env _ rec h with h' | ⟨h1, h2, h3⟩
      · simp at h'
      · exact ⟨h1, h2, Or.inl h3⟩
    · by_cases hi : primaryType f.mimetype = "image"
      · simp [uploadRoute, hv, hi, routeWrap_fst] at h
        rcases imageHandler_records_sub f env _ rec h with h' | ⟨h1, h2, h3⟩
        · simp at h'
        · exact ⟨h1, h2, Or.inr h3⟩
      · by_cases hin : multerPath (multerFilename f) ∈ disk0
        all_goals simp [uploadRoute, unlinkSync, hv, hi, hin] at h

/-- Records-origin property for the timestamp-variant route. -/
theorem uploadRouteTs_records_origin (file? : Option ReqFile) (now : Nat) (env : Env)
    (disk0 : List String) (rec : FileRecord) (h : rec ∈ (uploadRouteTs file? now env disk0).1.records) :
    env.archive = some rec.fileUrl ∧ env.persistOk = true ∧
      ∃ d, env.videoDetector = some d ∧ d.status = 200 ∧ rec.score = d.score ∧ rec.is_deepfake = d.is_deepfake := by
  rcases file? with _ | f
  · simp [uploadRouteTs] at h
  · by_cases hin : multerPath (tsFilename now f) ∈ disk0
    all_goals by_cases hin2 : multerPath (tsFilename now f) ∈ disk0.erase (multerPath (tsFilename now f))
    all_goals rcases hd : env.videoDetector with _ | d
    all_goals rcases ha : env.archive with _ | url
    all_goals rcases hp : env.persistOk
    all_goals try by_cases hst : d.status = 200
    all_goals try simp [uploadRouteTs, unlinkSync, hin, hin2, hd, ha, hp, hst] at h
    all_goals try simp [uploadRouteTs, unlinkSync, hin, hin2, hd, ha, hp] at h
    all_goals subst h
    all_goals simp [hst]

/-- The image handler always hands the stored upload path itself to the
detector, and to the archive when it gets that far. -/
theorem imageHandler_files_sub (f : ReqFile) (env : Env) (s : St) :
    (imageHandler f env s).1.detectorFile = some (multerPath (multerFilename f)) ∧
      ((imageHandler f env s).1.archiveFile = s.archiveFile ∨
       (imageHandler f env s).1.archiveFile = some (multerPath (multerFilename f))) := by
  by_cases hin : multerPath (multerFilename f) ∈ s.disk
  all_goals by_cases hin2 : multerPath (multerFilename f) ∈ s.disk.erase (multerPath (multerFilename f))
  all_goals rcases hi : env.imageDetector with _ | r
  all_goals rcases ha : env.archive with _ | url
  all_goals rcases hp : env.persistOk
  all_goals try by_cases hst : r.status = 200
  all_goals try simp [imageHandler, imageTry, unlinkSync, hin, hin2, hi, ha, hp, hst]
  all_goals try simp [imageHandler, imageTry, unlinkSync, hin, hin2, hi, ha, hp]

/-- A lookup that reports the video handler means the primary type was the
table's own key "video". -/
theorem handlersLookup_eq_ownVideo {t : String} (h : handlersLookup t = .ownVideo) :
    t = "video" := by
  by_cases hv : t = "video"
  · exact hv
  · by_cases hi : t = "image" <;>
      by_cases hc : t ∈ objectProtoCallableKeys <;>
      by_cases ht : t ∈ objectProtoThrowingKeys <;>
      simp [handlersLookup, hv, hi, hc, ht] at h

/-- A lookup that reports the image handler means the primary type was the
table's own key "image". -/
theorem handlersLookup_eq_ownImage {t : String} (h : handlersLookup t = .ownImage) :
    t ≠ "video" ∧ t = "image" := by
  by_cases hv : t = "video"
  · simp [handlersLookup, hv] at h
  · refine ⟨hv, ?_⟩
    by_cases hi : t = "image"
    · exact hi
    · by_cases hc : t ∈ objectProtoCallableKeys <;>
        by_cases ht : t ∈ objectProtoThrowingKeys <;>
        simp [handlersLookup, hv, hi, hc, ht] at h

/-- A missed lookup means the primary type was neither own key. -/
theorem handlersLookup_eq_missing {t : String} (h : handlersLookup t = .missing) :
    t ≠ "video" ∧ t ≠ "image" := by
  constructor <;> intro he <;> simp [handlersLookup, he] at h

/-- On dispatches that hit the table's own keys or miss the prototype chain
entirely, the faithful model and the restricted model coincide. -/
theorem uploadRouteJs_restricts_to_uploadRoute (f : ReqFile) (env : Env) (disk0 : List String)
    (h : handlersLookup (primaryType f.mimetype) = .ownVideo ∨
         handlersLookup (primaryType f.mimetype) = .ownImage ∨
         handlersLookup (primaryType f.mimetype) = .missing) :
    uploadRouteJs (some f) env disk0 =
      ((uploadRoute (some f) env disk0).1, some (uploadRoute (some f) env disk0).2) := by
  rcases h with h | h | h
  · have hv := handlersLookup_eq_ownVideo h
    simp [uploadRouteJs, uploadRoute, handlersLookup, hv]
  · obtain ⟨hv, hi⟩ := handlersLookup_eq_ownImage h
    simp [uploadRouteJs, uploadRoute, handlersLookup, hv, hi]
  · obtain ⟨hv, hi⟩ := handlersLookup_eq_missing h
    by_cases hin : multerPath (multerFilename f) ∈ disk0 <;>
      simp [uploadRouteJs, uploadRoute, unlinkSync, h, hv, hi, hin]

/-! ## Claim theorems -/

/-- Claim C1 (code bug): the claimed invariant — every temporary file is
removed on every exit path of POST /upload — fails in the code.  When the
ffmpeg re-encode of a video rejects, the route-level catch answers 500 and
leaves the original upload `uploads/a.mp4` on disk; when the Google Drive
upload throws after a successful detection, the catch answers 500 and leaves
the artifact `uploads/compressed_a.mp4` on disk. -/
theorem upload_failure_branches_leave_temp_files :
    ((uploadRoute (some ⟨"a.mp4", "video/mp4"⟩) ⟨false, none, none, none, false⟩ ["uploads/a.mp4"]).2.status = 500 ∧
     (uploadRoute (some ⟨"a.mp4", "video/mp4"⟩) ⟨false, none, none, none, false⟩ ["uploads/a.mp4"]).1.disk =
       ["uploads/a.mp4"]) ∧
    ((uploadRoute (some ⟨"a.mp4", "video/mp4"⟩) ⟨true, some ⟨200, 1, true⟩, none, none, true⟩ ["uploads/a.mp4"]).2.status = 500 ∧
     (uploadRoute (some ⟨"a.mp4", "video/mp4"⟩) ⟨true, some ⟨200, 1, true⟩, none, none, true⟩ ["uploads/a.mp4"]).1.disk =
       ["uploads/compressed_a.mp4"]) := by
  decide

/-- Counterexample to claim C2 as stated: a fully successful run of the
timestamp-variant route answers 200, yet its body carries no `fileName` and
the persisted record omits `fileName` as well. -/
theorem uploadTs_success_omits_fileName :
    (uploadRouteTs (some ⟨"a.mp4", "video/mp4"⟩) 7 ⟨true, some ⟨200, 1, true⟩, none, some "u", true⟩
        ["uploads/7_a.mp4"]).2.status = 200 ∧
    (uploadRouteTs (some ⟨"a.mp4", "video/mp4"⟩) 7 ⟨true, some ⟨200, 1, true⟩, none, some "u", true⟩
        ["uploads/7_a.mp4"]).2.fileName = none ∧
    (uploadRouteTs (some ⟨"a.mp4", "video/mp4"⟩) 7 ⟨true, some ⟨200, 1, true⟩, none, some "u", true⟩
        ["uploads/7_a.mp4"]).1.records = [⟨none, "u", 1, true⟩] := by
  decide

/-- Claim C2 (amended): in the main route every fully successful request
answers 200 with `fileName` (the client's original name), `fileUrl`, `score`
and `is_deepfake` — with the image score equal to the detector's probability
— and appends exactly one matching FileRecord; in the timestamp-variant
route the 200 body and the single appended record carry `fileUrl`, `score`
and `is_deepfake` but no `fileName`. -/
theorem upload_success_response_and_record :
    (∀ (f : ReqFile) (env : Env) (d : VideoResp) (url : String),
       primaryType f.mimetype = "video" → env.compressOk = true → env.videoDetector = some d →
       env.archive = some url → env.persistOk = true →
       (uploadRoute (some f) env [multerPath (multerFilename f)]).2 =
         ⟨200, "Video processed & uploaded", some f.originalname, some url, some d.score, some d.is_deepfake, none⟩ ∧
       (uploadRoute (some f) env [multerPath (multerFilename f)]).1.records =
         [⟨some f.originalname, url, d.score, d.is_deepfake⟩]) ∧
    (∀ (f : ReqFile) (env : Env) (r : ImageResp) (url : String),
       primaryType f.mimetype = "image" → env.imageDetector = some r → r.status = 200 →
       env.archive = some url → env.persistOk = true →
       (uploadRoute (some f) env [multerPath (multerFilename f)]).2 =
         ⟨200, "Image processed & uploaded", some f.originalname, some url, some r.probability, some r.is_deepfake, none⟩ ∧
       (uploadRoute (some f) env [multerPath (multerFilename f)]).1.records =
         [⟨some f.originalname, url, r.probability, r.is_deepfake⟩]) ∧
    (∀ (f : ReqFile) (now : Nat) (env : Env) (d : VideoResp) (url : String),
       env.videoDetector = some d → d.status = 200 → env.archive = some url → env.persistOk = true →
       (uploadRouteTs (some f) now env [multerPath (tsFilename now f)]).2 =
         ⟨200, "File uploaded & link saved", none, some url, some d.score, some d.is_deepfake, none⟩ ∧
       (uploadRouteTs (some f) now env [multerPath (tsFilename now f)]).1.records =
         [⟨none, url, d.score, d.is_deepfake⟩]) := by
  refine ⟨fun f env d url hm hc hd ha hp => ?_, fun f env r url hm hi hst ha hp => ?_,
          fun f now env d url hd hst ha hp => ?_⟩
  · have hne := multerPath_ne_compressedPathOf (multerFilename f)
    simp [uploadRoute, videoHandler, routeWrap, unlinkSync, hm, hc, hd, ha, hp,
          hne, hne.symm, List.erase_cons]
  · simp [uploadRoute, imageHandler, imageTry, routeWrap, unlinkSync, hm, hi, hst, ha, hp]
  · simp [uploadRouteTs, unlinkSync, hd, hst, ha, hp]

/-- Witness for the amended C2 theorem at concrete successful requests of all
three kinds. -/
theorem upload_success_response_and_record_witness :
    (uploadRoute (some ⟨"a.mp4", "video/mp4"⟩) ⟨true, some ⟨200, 1, true⟩, none, some "u", true⟩
        [multerPath (multerFilename ⟨"a.mp4", "video/mp4"⟩)]).2 =
      ⟨200, "Video processed & uploaded", some "a.mp4", some "u", some 1, some true, none⟩ ∧
    (uploadRoute (some ⟨"p.jpg", "image/jpeg"⟩) ⟨true, none, some ⟨200, 1, true⟩, some "u", true⟩
        [multerPath (multerFilename ⟨"p.jpg", "image/jpeg"⟩)]).2 =
      ⟨200, "Image processed & uploaded", some "p.jpg", some "u", some 1, some true, none⟩ ∧
    (uploadRouteTs (some ⟨"a.mp4", "video/mp4"⟩) 7 ⟨true, some ⟨200, 1, true⟩, none, some "u", true⟩
        [multerPath (tsFilename 7 ⟨"a.mp4", "video/mp4"⟩)]).2 =
      ⟨200, "File uploaded & link saved", none, some "u", some 1, some true, none⟩ :=
  ⟨(upload_success_response_and_record.1 ⟨"a.mp4", "video/mp4"⟩ _ ⟨200, 1, true⟩ "u"
      (by decide) rfl rfl rfl rfl).1,
   (upload_success_response_and_record.2.1 ⟨"p.jpg", "image/jpeg"⟩ _ ⟨200, 1, true⟩ "u"
      (by decide) rfl rfl rfl rfl).1,
   (upload_success_response_and_record.2.2 ⟨"a.mp4", "video/mp4"⟩ 7 _ ⟨200, 1, true⟩ "u"
      rfl rfl rfl rfl).1⟩

/-- Claim C3: every FileRecord written by either route variant corresponds to
a request in which the detector succeeded (its score is the record's score)
and the archive resolved the record's fileUrl, and the persistence write
happened only then; no failure branch produces a record. -/
theorem fileRecord_requires_detector_and_archive_success :
    ∀ (file? : Option ReqFile) (now : Nat) (env : Env) (disk0 : List String) (rec : FileRecord),
      (rec ∈ (uploadRoute file? env disk0).1.records →
        env.archive = some rec.fileUrl ∧ env.persistOk = true ∧
          ((∃ d, env.videoDetector = some d ∧ rec.score = d.score ∧ rec.is_deepfake = d.is_deepfake) ∨
           (∃ r, env.imageDetector = some r ∧ r.status = 200 ∧ rec.score = r.probability ∧
             rec.is_deepfake = r.is_deepfake))) ∧
      (rec ∈ (uploadRouteTs file? now env disk0).1.records →
        env.archive = some rec.fileUrl ∧ env.persistOk = true ∧
          ∃ d, env.videoDetector = some d ∧ d.status = 200 ∧ rec.score = d.score ∧
            rec.is_deepfake = d.is_deepfake) :=
  fun file? now env disk0 rec =>
    ⟨fun h => uploadRoute_records_origin file? env disk0 rec h,
     fun h => uploadRouteTs_records_origin file? now env disk0 rec h⟩

/-- Witness for C3 at a concrete successful video upload whose single record
is traced back to the detector score and archive URL. -/
theorem fileRecord_requires_detector_and_archive_success_witness :
    (⟨true, some ⟨200, 1, true⟩, none, some "u", true⟩ : Env).archive = some "u" ∧
    (⟨true, some ⟨200, 1, true⟩, none, some "u", true⟩ : Env).persistOk = true ∧
    ((∃ d, (⟨true, some ⟨200, 1, true⟩, none, some "u", true⟩ : Env).videoDetector = some d ∧
        (1 : Rat) = d.score ∧ true = d.is_deepfake) ∨
     (∃ r, (⟨true, some ⟨200, 1, true⟩, none, some "u", true⟩ : Env).imageDetector = some r ∧
        r.status = 200 ∧ (1 : Rat) = r.probability ∧ true = r.is_deepfake)) :=
  (fileRecord_requires_detector_and_archive_success (some ⟨"a.mp4", "video/mp4"⟩) 7
      ⟨true, some ⟨200, 1, true⟩, none, some "u", true⟩ ["uploads/a.mp4"]
      ⟨some "a.mp4", "u", 1, true⟩).1 (by decide)

/-- Claim C4: whenever a detector call fails — axios rejection (timeout or
transport failure or non-2xx) for video, axios rejection or a non-200 status
for image, and likewise in the timestamp variant — the file that was sent to
the detector is deleted, a 500 response is returned, and neither the archive
nor the persistence collaborator is ever reached; the configured axios
timeout is 30000 ms. -/
theorem detector_failure_cleans_up_and_skips_collaborators :
    (∀ (f : ReqFile) (env : Env),
       primaryType f.mimetype = "video" → env.compressOk = true → env.videoDetector = none →
       uploadRoute (some f) env [multerPath (multerFilename f)] =
         (⟨[], [], some (compressedPathOf (multerFilename f)), none, false⟩,
          ⟨500, "Flask API failed, upload canceled", none, none, none, none, none⟩)) ∧
    (∀ (f : ReqFile) (env : Env),
       primaryType f.mimetype = "image" → env.imageDetector = none →
       uploadRoute (some f) env [multerPath (multerFilename f)] =
         (⟨[], [], some (multerPath (multerFilename f)), none, false⟩,
          ⟨500, "Image processing failed", none, none, none, none, some "Image API request failed"⟩)) ∧
    (∀ (f : ReqFile) (env : Env) (r : ImageResp),
       primaryType f.mimetype = "image" → env.imageDetector = some r → r.status ≠ 200 →
       uploadRoute (some f) env [multerPath (multerFilename f)] =
         (⟨[], [], some (multerPath (multerFilename f)), none, false⟩,
          ⟨500, "Image processing failed", none, none, none, none, some "Image API failed"⟩)) ∧
    (∀ (f : ReqFile) (now : Nat) (env : Env),
       env.videoDetector = none →
       uploadRouteTs (some f) now env [multerPath (tsFilename now f)] =
         (⟨[], [], some (multerPath (tsFilename now f)), none, false⟩,
          ⟨500, "Flask API failed, upload canceled", none, none, none, none, none⟩)) ∧
    (∀ (f : ReqFile) (now : Nat) (env : Env) (d : VideoResp),
       env.videoDetector = some d → d.status ≠ 200 →
       uploadRouteTs (some f) now env [multerPath (tsFilename now f)] =
         (⟨[], [], some (multerPath (tsFilename now f)), none, false⟩,
          ⟨500, "Unexpected Flask API response", none, none, none, none, none⟩)) ∧
    detectorTimeoutMs = 30000 := by
  refine ⟨fun f env hm hc hd => ?_, fun f env hm hi => ?_, fun f env r hm hi hst => ?_,
          fun f now env hd => ?_, fun f now env d hd hst => ?_, rfl⟩
  · have hne := multerPath_ne_compressedPathOf (multerFilename f)
    simp [uploadRoute, videoHandler, routeWrap, unlinkSync, hm, hc, hd,
          hne, hne.symm, List.erase_cons]
  · simp [uploadRoute, imageHandler, imageTry, routeWrap, unlinkSync, hm, hi, errMessage]
  · simp [uploadRoute, imageHandler, imageTry, routeWrap, unlinkSync, hm, hi, hst, errMessage]
  · simp [uploadRouteTs, unlinkSync, hd]
  · simp [uploadRouteTs, unlinkSync, hd, hst]

/-- Witness for C4 at concrete failing detector calls of each flavour. -/
theorem detector_failure_cleans_up_and_skips_collaborators_witness :
    uploadRoute (some ⟨"a.mp4", "video/mp4"⟩) ⟨true, none, none, some "u", true⟩
        [multerPath (multerFilename ⟨"a.mp4", "video/mp4"⟩)] =
      (⟨[], [], some (compressedPathOf (multerFilename ⟨"a.mp4", "video/mp4"⟩)), none, false⟩,
       ⟨500, "Flask API failed, upload canceled", none, none, none, none, none⟩) ∧
    uploadRoute (some ⟨"p.jpg", "image/jpeg"⟩) ⟨true, none, none, some "u", true⟩
        [multerPath (multerFilename ⟨"p.jpg", "image/jpeg"⟩)] =
      (⟨[], [], some (multerPath (multerFilename ⟨"p.jpg", "image/jpeg"⟩)), none, false⟩,
       ⟨500, "Image processing failed", none, none, none, none, some "Image API request failed"⟩) ∧
    uploadRoute (some ⟨"p.jpg", "image/jpeg"⟩) ⟨true, none, some ⟨503, 1, true⟩, some "u", true⟩
        [multerPath (multerFilename ⟨"p.jpg", "image/jpeg"⟩)] =
      (⟨[], [], some (multerPath (multerFilename ⟨"p.jpg", "image/jpeg"⟩)), none, false⟩,
       ⟨500, "Image processing failed", none, none, none, none, some "Image API failed"⟩) ∧
    uploadRouteTs (some ⟨"a.mp4", "video/mp4"⟩) 7 ⟨true, none, none, some "u", true⟩
        [multerPath (tsFilename 7 ⟨"a.mp4", "video/mp4"⟩)] =
      (⟨[], [], some (multerPath (tsFilename 7 ⟨"a.mp4", "video/mp4"⟩)), none, false⟩,
       ⟨500, "Flask API failed, upload canceled", none, none, none, none, none⟩) :=
  ⟨detector_failure_cleans_up_and_skips_collaborators.1 ⟨"a.mp4", "video/mp4"⟩ _ (by decide) rfl rfl,
   detector_failure_cleans_up_and_skips_collaborators.2.1 ⟨"p.jpg", "image/jpeg"⟩ _ (by decide) rfl,
   detector_failure_cleans_up_and_skips_collaborators.2.2.1 ⟨"p.jpg", "image/jpeg"⟩ _ ⟨503, 1, true⟩
     (by decide) rfl (by decide),
   detector_failure_cleans_up_and_skips_collaborators.2.2.2.1 ⟨"a.mp4", "video/mp4"⟩ 7 _ rfl⟩

/-- Counterexample to claim C5 as stated: on a fully successful image upload
the path handed to the detector and to the archive is the original stored
upload `uploads/p.jpg` itself — no compressed artifact is ever produced. -/
theorem image_pipeline_sends_original_file :
    (uploadRoute (some ⟨"p.jpg", "image/jpeg"⟩) ⟨true, none, some ⟨200, 1, true⟩, some "u", true⟩
        ["uploads/p.jpg"]).1.detectorFile = some "uploads/p.jpg" ∧
    (uploadRoute (some ⟨"p.jpg", "image/jpeg"⟩) ⟨true, none, some ⟨200, 1, true⟩, some "u", true⟩
        ["uploads/p.jpg"]).1.archiveFile = some "uploads/p.jpg" := by
  decide

/-- Claim C5 (amended): the image sub-pipeline performs no resize or
re-encode at all; whatever the outcome, the detector is handed the original
stored upload path, and the archive — when reached — receives that same
original path. -/
theorem image_receives_original_not_compressed (f : ReqFile) (env : Env) (disk0 : List String)
    (hm : primaryType f.mimetype = "image") :
    (uploadRoute (some f) env disk0).1.detectorFile = some (multerPath (multerFilename f)) ∧
      ((uploadRoute (some f) env disk0).1.archiveFile = none ∨
       (uploadRoute (some f) env disk0).1.archiveFile = some (multerPath (multerFilename f))) := by
  have hv : primaryType f.mimetype ≠ "video" := by
    rw [hm]
    decide
  have h := imageHandler_files_sub f env ⟨disk0, [], none, none, false⟩
  simpa [uploadRoute, hv, hm, routeWrap_fst] using h

/-- Witness for the amended C5 theorem at a concrete image request. -/
theorem image_receives_original_not_compressed_witness :
    (uploadRoute (some ⟨"q.png", "image/png"⟩) ⟨true, none, none, none, false⟩ ["uploads/q.png"]).1.detectorFile =
      some (multerPath (multerFilename ⟨"q.png", "image/png"⟩)) ∧
    ((uploadRoute (some ⟨"q.png", "image/png"⟩) ⟨true, none, none, none, false⟩ ["uploads/q.png"]).1.archiveFile = none ∨
     (uploadRoute (some ⟨"q.png", "image/png"⟩) ⟨true, none, none, none, false⟩ ["uploads/q.png"]).1.archiveFile =
       some (multerPath (multerFilename ⟨"q.png", "image/png"⟩))) :=
  image_receives_original_not_compressed ⟨"q.png", "image/png"⟩ _ _ (by decide)

/-- Claim C6 (code bug): `compressVideo` passes `-vf` twice — first the
640-width lanczos scale, then the even-dimension pad — so in the assembled
ffmpeg argv the value of the last `-vf` flag, the only one ffmpeg applies,
is the pad filter: the 640px downscale the claim (and the code's own
comments) promise never takes effect.  The bitrate and preset settings do
match the claim. -/
theorem compressVideo_scale_filter_overridden :
    lastVfValue compressVideoArgv = some "pad=ceil(iw/2)*2:ceil(ih/2)*2" ∧
    lastVfValue compressVideoArgv ≠ some "scale=640:-2:flags=lanczos" ∧
    "-vf" ∈ compressVideoArgv ∧
    "scale=640:-2:flags=lanczos" ∈ compressVideoArgv ∧
    videoBitrateArg = "1000k" ∧ audioBitrateArg = "128k" ∧
    "-preset" ∈ compressVideoArgv ∧ "fast" ∈ compressVideoArgv := by
  decide

/-- Counterexample to claim C7 as stated: when the stored temp file is not
visible on disk, the timestamp-variant route answers with status 500
("Temporary file not found"), which is not in the 400 class the claim
requires. -/
theorem missing_temp_file_yields_500_not_400 :
    (uploadRouteTs (some ⟨"a.mp4", "video/mp4"⟩) 7 ⟨true, none, none, none, false⟩ []).2 =
      ⟨500, "Temporary file not found", none, none, none, none, none⟩ ∧
    ¬(400 ≤ (uploadRouteTs (some ⟨"a.mp4", "video/mp4"⟩) 7 ⟨true, none, none, none, false⟩ []).2.status ∧
      (uploadRouteTs (some ⟨"a.mp4", "video/mp4"⟩) 7 ⟨true, none, none, none, false⟩ []).2.status < 500) := by
  decide

/-- Claim C7 (amended): the timestamp-variant route checks the temp file's
existence exactly once — no poll, no retry — and a missing file makes it
return immediately with 500 "Temporary file not found", calling no detector,
archive or persistence collaborator and leaving the disk untouched (the main
route performs no existence check at all). -/
theorem missing_temp_file_single_check (f : ReqFile) (now : Nat) (env : Env) (disk0 : List String)
    (h : multerPath (tsFilename now f) ∉ disk0) :
    uploadRouteTs (some f) now env disk0 =
      (⟨disk0, [], none, none, false⟩,
       ⟨500, "Temporary file not found", none, none, none, none, none⟩) := by
  simp [uploadRouteTs, h]

/-- Witness for the amended C7 theorem: a request whose stored file never
became visible. -/
theorem missing_temp_file_single_check_witness :
    uploadRouteTs (some ⟨"a.mp4", "video/mp4"⟩) 7 ⟨true, some ⟨200, 1, true⟩, none, some "u", true⟩ [] =
      (⟨[], [], none, none, false⟩,
       ⟨500, "Temporary file not found", none, none, none, none, none⟩) :=
  missing_temp_file_single_check ⟨"a.mp4", "video/mp4"⟩ 7 _ [] (by decide)

/-- Counterexample to claim C8 as stated: for an image upload whose
persistence write fails after the temp file was already deleted, the catch
block's own `unlinkSync` throws, and the response message is the outer
handler's generic "Error uploading file" — not the image branch's
"Image processing failed" message for the original stage failure. -/
theorem cleanup_failure_masks_original_message :
    (uploadRoute (some ⟨"p.jpg", "image/jpeg"⟩) ⟨true, none, some ⟨200, 1, true⟩, some "u", false⟩
        ["uploads/p.jpg"]).2 =
      ⟨500, "Error uploading file", none, none, none, none, none⟩ ∧
    (uploadRoute (some ⟨"p.jpg", "image/jpeg"⟩) ⟨true, none, some ⟨200, 1, true⟩, some "u", false⟩
        ["uploads/p.jpg"]).2.message ≠ "Image processing failed" := by
  decide

/-- Claim C8 (amended): when an image-pipeline stage fails after the temp
file is already gone — persistence failing after the successful archive —
the failed cleanup in the catch block still yields a 500 response, but with
the outer catch's generic message replacing the original stage failure's
message and dropping its error detail. -/
theorem cleanup_failure_preserves_status_generic_message (f : ReqFile) (env : Env) (r : ImageResp)
    (url : String) (hm : primaryType f.mimetype = "image") (hi : env.imageDetector = some r)
    (hst : r.status = 200) (ha : env.archive = some url) (hp : env.persistOk = false) :
    uploadRoute (some f) env [multerPath (multerFilename f)] =
      (⟨[], [], some (multerPath (multerFilename f)), some (multerPath (multerFilename f)), true⟩,
       ⟨500, "Error uploading file", none, none, none, none, none⟩) := by
  simp [uploadRoute, imageHandler, imageTry, routeWrap, unlinkSync, hm, hi, hst, ha, hp]

/-- Witness for the amended C8 theorem at a concrete image request with a
failing persistence write. -/
theorem cleanup_failure_preserves_status_generic_message_witness :
    uploadRoute (some ⟨"p.jpg", "image/jpeg"⟩) ⟨true, none, some ⟨200, 1, true⟩, some "u", false⟩
        [multerPath (multerFilename ⟨"p.jpg", "image/jpeg"⟩)] =
      (⟨[], [], some (multerPath (multerFilename ⟨"p.jpg", "image/jpeg"⟩)),
         some (multerPath (multerFilename ⟨"p.jpg", "image/jpeg"⟩)), true⟩,
       ⟨500, "Error uploading file", none, none, none, none, none⟩) :=
  cleanup_failure_preserves_status_generic_message ⟨"p.jpg", "image/jpeg"⟩ _ ⟨200, 1, true⟩ "u"
    (by decide) rfl rfl rfl rfl

/-- Counterexample to claim C9 as stated: the MIME primaries "toString" and
"__proto__" are neither video nor image, yet `handlers[fileType]` finds a
truthy inherited `Object.prototype` member, so the 400/unlink branch never
runs — the toString request receives no response at all and the __proto__
request gets the outer catch's generic 500, the stored temp file remaining
on disk in both cases. -/
theorem inherited_prototype_member_bypasses_rejection :
    primaryType "toString/weird" ≠ "video" ∧
    primaryType "toString/weird" ≠ "image" ∧
    (uploadRouteJs (some ⟨"x.bin", "toString/weird"⟩) ⟨true, none, none, none, false⟩
        ["uploads/x.bin"]).2 = none ∧
    (uploadRouteJs (some ⟨"x.bin", "toString/weird"⟩) ⟨true, none, none, none, false⟩
        ["uploads/x.bin"]).1.disk = ["uploads/x.bin"] ∧
    primaryType "__proto__/weird" ≠ "video" ∧
    primaryType "__proto__/weird" ≠ "image" ∧
    (uploadRouteJs (some ⟨"x.bin", "__proto__/weird"⟩) ⟨true, none, none, none, false⟩
        ["uploads/x.bin"]).2 =
      some ⟨500, "Error uploading file", none, none, none, none, none⟩ ∧
    (uploadRouteJs (some ⟨"x.bin", "__proto__/weird"⟩) ⟨true, none, none, none, false⟩
        ["uploads/x.bin"]).1.disk = ["uploads/x.bin"] := by
  decide

/-- Claim C9 (amended): a request with no parsed file is answered 400 with
the state untouched.  A request whose MIME primary component is neither
video nor image is answered 400 with the stored temp file deleted and no
detector, archive or persistence call made exactly when the prototype-chain
lookup `handlers[fileType]` misses, i.e. when the primary also names no
inherited `Object.prototype` member.  When the primary names an inherited
member, the truthiness guard passes: a callable member leaves the request
hanging with no response, and a non-callable or throwing member produces
the outer catch's generic 500 — in both cases no collaborator is called and
the temp file stays on disk. -/
theorem client_input_rejections_scoped :
    (∀ (env : Env) (disk0 : List String),
       uploadRouteJs none env disk0 =
         (⟨disk0, [], none, none, false⟩,
          some ⟨400, "No file uploaded or invalid format", none, none, none, none, none⟩)) ∧
    (∀ (f : ReqFile) (env : Env),
       handlersLookup (primaryType f.mimetype) = .missing →
       uploadRouteJs (some f) env [multerPath (multerFilename f)] =
         (⟨[], [], none, none, false⟩,
          some ⟨400, "Unsupported file type", none, none, none, none, none⟩)) ∧
    (∀ (f : ReqFile) (env : Env) (disk0 : List String),
       handlersLookup (primaryType f.mimetype) = .inheritedCallable →
       uploadRouteJs (some f) env disk0 = (⟨disk0, [], none, none, false⟩, none)) ∧
    (∀ (f : ReqFile) (env : Env) (disk0 : List String),
       handlersLookup (primaryType f.mimetype) = .inheritedThrowing →
       uploadRouteJs (some f) env disk0 =
         (⟨disk0, [], none, none, false⟩,
          some ⟨500, "Error uploading file", none, none, none, none, none⟩)) := by
  refine ⟨fun env disk0 => rfl, fun f env hm => ?_, fun f env disk0 hm => ?_,
          fun f env disk0 hm => ?_⟩
  · simp only [uploadRouteJs, hm]
    rw [unlinkSync_of_mem (by simp)]
    simp
  · simp [uploadRouteJs, hm]
  · simp [uploadRouteJs, hm]

/-- Witness for the amended C9 theorem: a PDF upload is rejected with 400
and its temp file removed, while toString- and proto-primary uploads skip
the rejection branch. -/
theorem client_input_rejections_scoped_witness :
    uploadRouteJs none ⟨true, none, none, none, false⟩ ["uploads/x"] =
      (⟨["uploads/x"], [], none, none, false⟩,
       some ⟨400, "No file uploaded or invalid format", none, none, none, none, none⟩) ∧
    uploadRouteJs (some ⟨"doc.pdf", "application/pdf"⟩) ⟨true, none, none, none, false⟩
        [multerPath (multerFilename ⟨"doc.pdf", "application/pdf"⟩)] =
      (⟨[], [], none, none, false⟩,
       some ⟨400, "Unsupported file type", none, none, none, none, none⟩) ∧
    uploadRouteJs (some ⟨"x.bin", "toString/weird"⟩) ⟨true, none, none, none, false⟩
        ["uploads/x.bin"] = (⟨["uploads/x.bin"], [], none, none, false⟩, none) ∧
    uploadRouteJs (some ⟨"x.bin", "__proto__/weird"⟩) ⟨true, none, none, none, false⟩
        ["uploads/x.bin"] =
      (⟨["uploads/x.bin"], [], none, none, false⟩,
       some ⟨500, "Error uploading file", none, none, none, none, none⟩) :=
  ⟨client_input_rejections_scoped.1 ⟨true, none, none, none, false⟩ ["uploads/x"],
   client_input_rejections_scoped.2.1 ⟨"doc.pdf", "application/pdf"⟩ _ (by decide),
   client_input_rejections_scoped.2.2.1 ⟨"x.bin", "toString/weird"⟩ _ ["uploads/x.bin"] (by decide),
   client_input_rejections_scoped.2.2.2 ⟨"x.bin", "__proto__/weird"⟩ _ ["uploads/x.bin"] (by decide)⟩

/-- Claim C10: the main route stores an upload at exactly
"uploads/" ++ originalname — the multer filename callback returns the
client-supplied name unchanged — and derives the compressed artifact path
"uploads/compressed_" ++ that same name, so any two requests whose files
share an original filename use identical temp paths. -/
theorem temp_paths_are_unsanitized_originalname :
    (∀ f : ReqFile, multerFilename f = f.originalname) ∧
    (∀ n : String, multerPath n = "uploads/" ++ n) ∧
    (∀ n : String, compressedPathOf n = "uploads/compressed_" ++ n) ∧
    (∀ f g : ReqFile, f.originalname = g.originalname →
       multerPath (multerFilename f) = multerPath (multerFilename g) ∧
       compressedPathOf (multerFilename f) = compressedPathOf (multerFilename g)) := by
  refine ⟨fun f => rfl, fun n => rfl, fun n => rfl, fun f g h => ?_⟩
  rw [multerFilename, multerFilename, h]
  exact ⟨rfl, rfl⟩

/-- Witness for C10: two different uploads named "x.mp4" collide on both the
stored path and the derived artifact path. -/
theorem temp_paths_are_unsanitized_originalname_witness :
    multerPath (multerFilename ⟨"x.mp4", "video/mp4"⟩) =
      multerPath (multerFilename ⟨"x.mp4", "video/avi"⟩) ∧
    compressedPathOf (multerFilename ⟨"x.mp4", "video/mp4"⟩) =
      compressedPathOf (multerFilename ⟨"x.mp4", "video/avi"⟩) :=
  temp_paths_are_unsanitized_originalname.2.2.2 ⟨"x.mp4", "video/mp4"⟩ ⟨"x.mp4", "video/avi"⟩ rfl
